import Mathlib

/-!
Verification of the query-routing / agent-dispatch logic and the
conversation-memory store of the `q-revised` repository.

The Python sources are embedded shallowly:

* `src/agent_memory.py` — `AgentMemoryManager` becomes a pure state
  (`Store`) with explicit state-passing operations; the external `agno`
  `Memory` object is its `messages` list.
* `src/agent_controller.py` — the ReAct router's answer parser
  (`ReactAgent._determine_agent`), its keyword fallback, the registry
  dispatch (`MultiAgentSystem.get_agent_response`) and the controller's
  `CalendarAgent._mock_response`.
* `src/calendar_agent.py` — the standalone `CalendarAgent`: mock
  responses, query enhancement and the history-continuity branch of
  `get_response`.
* `src/simple_search_agent.py` — `SearchAgent.get_response` and its mock.

Python string operations are modelled on `List Char` / `String`:
`pyIn` is the `in` substring test, `pySplit` is `str.split(sep)` for a
non-empty separator (Python raises `ValueError` on an empty separator;
no call site uses one), `pySliceLast` is the slice `l[-m:]`, and Python
list indexing `[i]` — which raises `IndexError` when out of range — is
`pyIdx`, returning `Except`.  `str.strip()` is `pyStrip` (drop leading
and trailing whitespace) and `str.lower()` is `pyLower`, per-character
ASCII lowercasing (all keywords, separators and template texts involved
are ASCII or unaffected by Python's Unicode lowercasing).
-/

namespace Spec2Proof

/-- Boolean test that `n` is a leading segment of `h`; the building block
for the substring search performed by Python's `in` and `str.split`. -/
def isPrefixList : List Char → List Char → Bool
  | [], _ => true
  | _ :: _, [] => false
  | a :: as, b :: bs => a == b && isPrefixList as bs

/-- Substring occurrence test on character lists: some tail of `h` starts
with `needle`.  This is the semantics of Python's `needle in h`. -/
def containsSubList (needle : List Char) : List Char → Bool
  | [] => needle.isEmpty
  | c :: rest => isPrefixList needle (c :: rest) || containsSubList needle rest

/-- Python's substring operator `needle in hay` on strings. -/
def pyIn (needle hay : String) : Bool :=
  containsSubList needle.data hay.data

/-- Worker for `pySplit`: scans the input left to right; `acc` is the
current piece (reversed) and `skip` counts separator characters still to
be discarded after a match.  On a match the piece is emitted and the
remaining `sep.length - 1` separator characters are skipped. -/
def pySplitAux (sep : List Char) : List Char → List Char → Nat → List (List Char)
  | [], acc, _ => [acc.reverse]
  | _ :: rest, acc, skip + 1 => pySplitAux sep rest acc skip
  | c :: rest, acc, 0 =>
    if isPrefixList sep (c :: rest) then
      acc.reverse :: pySplitAux sep rest [] (sep.length - 1)
    else
      pySplitAux sep rest (c :: acc) 0

/-- Python's `s.split(sep)` on character lists: split at each
non-overlapping occurrence of `sep`, leftmost first.  Faithful for a
non-empty `sep`; Python raises `ValueError` on an empty separator and no
call site in the sources passes one. -/
def pySplit (sep s : List Char) : List (List Char) :=
  pySplitAux sep s [] 0

/-- Python's `s.split(sep)` on strings. -/
def pySplitS (sep s : String) : List String :=
  (pySplit sep.data s.data).map String.mk

/-- Python list indexing `l[i]` for a non-negative index: out-of-range
access raises `IndexError`, modelled as `Except.error`. -/
def pyIdx {α : Type} (l : List α) (i : Nat) : Except String α :=
  match l.get? i with
  | some x => Except.ok x
  | none => Except.error "IndexError"

/-- Python list indexing `l[-1]` (last element; `IndexError` on an empty
list). -/
def pyIdxLast {α : Type} (l : List α) : Except String α :=
  match l.getLast? with
  | some x => Except.ok x
  | none => Except.error "IndexError"

/-- Python's slice `l[-m:]` for a natural `m`: the last `m` elements,
except that for `m = 0` the slice start is `-0 = 0` and the whole list
is returned. -/
def pySliceLast {α : Type} (l : List α) (m : Nat) : List α :=
  if m = 0 then l else l.drop (l.length - m)

/-- Python's `s.strip()`: drop leading and trailing whitespace. -/
def pyStrip (s : String) : String :=
  String.mk (((s.data.dropWhile Char.isWhitespace).reverse.dropWhile
    Char.isWhitespace).reverse)

/-- Python's `s.lower()`: per-character lowercasing. -/
def pyLower (s : String) : String :=
  String.mk (s.data.map Char.toLower)

/-!
Conversation-memory store, from `src/agent_memory.py` (`AgentMemoryManager`).

The external `agno` `Memory` object is used only through its `messages`
list and its `add_user_message` / `add_ai_message` appends (which add an
entry with role `"user"` resp. `"assistant"`); it is embedded as the
plain list of entries.  `memories` is the in-memory dict (agent_id to
`Memory`, `none` for a missing key) and `disk` the pickled files written
by `_save_memory`.
-/

/-- One conversation entry of a `Memory` message list: a role string
(`"user"` or `"assistant"`) and the text content. -/
structure Msg where
  role : String
  content : String
deriving DecidableEq, Repr

/-- State of the `AgentMemoryManager`: the in-memory `memories` dict and
the per-agent pickle files on disk. -/
structure Store where
  mem : String → Option (List Msg)
  disk : String → Option (List Msg)

/-- A manager with no memories and no persisted files. -/
def emptyStore : Store :=
  ⟨fun _ => none, fun _ => none⟩

/-- The message list of `get_memory(agent_id)`: the stored one, or that of
a fresh empty `Memory()` when the agent has none yet. -/
def getMemoryMsgs (st : Store) (aid : String) : List Msg :=
  (st.mem aid).getD []

/-- The state effect of `get_memory(agent_id)`: a missing entry is created
(empty).  `get_conversation_history` and `get_memory_stats` have exactly
this state effect. -/
def getMemoryStore (st : Store) (aid : String) : Store :=
  { st with mem := fun k => if k = aid then some (getMemoryMsgs st aid) else st.mem k }

/-- `_save_memory(agent_id)`: when the agent has an in-memory entry, write
it to disk.  `diskOk = false` models a raised `PickleError` / `IOError`;
the method catches it, prints, and leaves every state component
unchanged. -/
def saveMemory (diskOk : Bool) (st : Store) (aid : String) : Store :=
  if (st.mem aid).isSome then
    if diskOk then
      { st with disk := fun k => if k = aid then st.mem aid else st.disk k }
    else st
  else st

/-- `add_user_message(agent_id, message)`: `get_memory` (creating the
entry if needed), append a user entry in memory, then `_save_memory`. -/
def addUserMessage (diskOk : Bool) (st : Store) (aid msg : String) : Store :=
  let st1 := getMemoryStore st aid
  let st2 := { st1 with
    mem := fun k =>
      if k = aid then some (getMemoryMsgs st1 aid ++ [Msg.mk "user" msg])
      else st1.mem k }
  saveMemory diskOk st2 aid

/-- `add_ai_message(agent_id, message)`: same as `add_user_message` with
role `"assistant"`. -/
def addAIMessage (diskOk : Bool) (st : Store) (aid msg : String) : Store :=
  let st1 := getMemoryStore st aid
  let st2 := { st1 with
    mem := fun k =>
      if k = aid then some (getMemoryMsgs st1 aid ++ [Msg.mk "assistant" msg])
      else st1.mem k }
  saveMemory diskOk st2 aid

/-- One line of the formatted history: `"User: ..."` for role `"user"`,
`"Assistant: ..."` otherwise. -/
def formatMsg (m : Msg) : String :=
  (if m.role = "user" then "User" else "Assistant") ++ ": " ++ m.content

/-- `"\n\n".join` of the formatted entries. -/
def renderHistory : List Msg → String
  | [] => ""
  | [m] => formatMsg m
  | m :: m' :: rest => formatMsg m ++ "\n\n" ++ renderHistory (m' :: rest)

/-- `get_conversation_history(agent_id, max_messages)` (its return value,
as a function of the agent's current message list): take
`messages[-max_messages:]` when more than `max_messages` entries exist,
return `""` for an empty selection, else the joined rendering.  The
Python default for `max_messages` is 10. -/
def getConversationHistory (msgs : List Msg) (maxMessages : Nat) : String :=
  let messages := if msgs.length > maxMessages then pySliceLast msgs maxMessages else msgs
  if messages = [] then "" else renderHistory messages

/-- `clear_memory(agent_id)`: when the agent has an entry, replace it with
an empty `Memory()` and persist. -/
def clearMemory (diskOk : Bool) (st : Store) (aid : String) : Store :=
  if (st.mem aid).isSome then
    saveMemory diskOk
      { st with mem := fun k => if k = aid then some [] else st.mem k } aid
  else st

/-!
Router, from `src/agent_controller.py`: the live-path answer parser of
`ReactAgent._determine_agent`, its keyword-fallback branch, and the
registry dispatch of `ReactAgent.process_query` /
`MultiAgentSystem.get_agent_response`.
-/

/-- The fixed enumeration the answer parser scans, in source order. -/
def agentNames : List String :=
  ["direct", "search", "calendar", "research", "study_plan",
   "document_analysis", "general"]

/-- The keys of the `MultiAgentSystem.agents` registry. -/
def registryKeys : List String :=
  ["general", "search", "chat", "research", "study_plan", "document_analysis",
   "collaborative_learning", "evaluation", "calendar", "react"]

/-- The parser loop of `_determine_agent`: scan the names in order and
replace the answer by the first name occurring in it as a substring
(`break`); keep the answer unchanged when none occurs. -/
def findAgentName : List String → String → String
  | [], choice => choice
  | n :: rest, choice => if pyIn n choice then n else findAgentName rest choice

/-- `_determine_agent` on the live path: the model's captured answer is
stripped and lowercased (`f.getvalue().strip().lower()`), then scanned. -/
def determineAgentLive (rawAnswer : String) : String :=
  findAgentName agentNames (pyLower (pyStrip rawAnswer))

/-- Which capability ultimately handles the query: `process_query`
responds directly for `"direct"`, otherwise `get_agent_response`
dispatches to `agents[choice]` when the key exists and defaults to the
general agent otherwise. -/
def handledBy (choice : String) : String :=
  if choice = "direct" then "direct"
  else if registryKeys.contains choice then choice
  else "general"

/-- Keyword lists of the fallback branch of `_determine_agent`, in source
order. -/
def locationWords : List String :=
  ["restaurant", "café", "best", "recommend", "where", "location"]

def calendarWords : List String :=
  ["calendar", "schedule", "meeting", "appointment"]

def scienceWords : List String :=
  ["entropy", "quantum", "science", "universe"]

def studyWords : List String :=
  ["study", "learn", "course", "education"]

def documentWords : List String :=
  ["document", "pdf", "analyze", "file"]

/-- The keyword-fallback branch of `_determine_agent` (no live backend):
ordered keyword rules over the lowercased query, first match winning;
returns the chosen capability and the action explanation. -/
def determineAgentMock (query : String) : String × String :=
  let ql := pyLower query
  if locationWords.any (fun w => pyIn w ql) then
    ("research", "I\x27ll search for some restaurant recommendations for you.")
  else if calendarWords.any (fun w => pyIn w ql) then
    ("calendar", "I\x27ll help you with your calendar.")
  else if scienceWords.any (fun w => pyIn w ql) then
    ("research", "Let me research this scientific topic for you.")
  else if studyWords.any (fun w => pyIn w ql) then
    ("study_plan", "I\x27ll help create a study plan.")
  else if documentWords.any (fun w => pyIn w ql) then
    ("document_analysis", "I\x27ll analyze this document for you.")
  else
    ("direct", "I\x27ll answer this directly.")

/-!
Calendar capability, from `src/calendar_agent.py` (`CalendarAgent`) and
the second copy in `src/agent_controller.py` (`CalendarAgent`), plus the
search capability of `src/simple_search_agent.py` (`SearchAgent`).
-/

/-- The Python conditional field expression
`q.split(sep1)[1].split(sep2)[0].strip() if sep1 in q else dflt`. -/
def splitField2 (sep1 sep2 dflt q : String) : Except String String :=
  if pyIn sep1 q then do
    let p ← pyIdx (pySplitS sep1 q) 1
    let q0 ← pyIdx (pySplitS sep2 p) 0
    pure (pyStrip q0)
  else pure dflt

/-- The unguarded field expression `q.split(sep1)[1].split(sep2)[0].strip()`. -/
def splitField2U (sep1 sep2 q : String) : Except String String := do
  let p ← pyIdx (pySplitS sep1 q) 1
  let q0 ← pyIdx (pySplitS sep2 p) 0
  pure (pyStrip q0)

/-- The field expression `q.split(sep)[1].strip() if sep in q else dflt`. -/
def splitField1 (sep dflt q : String) : Except String String :=
  if pyIn sep q then do
    let p ← pyIdx (pySplitS sep q) 1
    pure (pyStrip p)
  else pure dflt

/-- The unguarded field expression `q.split(sep)[1].strip()`. -/
def splitField1U (sep q : String) : Except String String := do
  let p ← pyIdx (pySplitS sep q) 1
  pure (pyStrip p)

/-- The field expression `q.split(sep)[-1].strip() if sep in q else dflt`. -/
def splitFieldLast (sep dflt q : String) : Except String String :=
  if pyIn sep q then do
    let p ← pyIdxLast (pySplitS sep q)
    pure (pyStrip p)
  else pure dflt

/-- The "Calendar Event Created" template (identical in both calendar
agent implementations). -/
def eventCreatedTemplate (title date time : String) : String :=
  "# Calendar Event Created ✅\n\n## Event Details\n- Title: " ++ title
    ++ "\n- Date: " ++ date ++ "\n- Time: " ++ time
    ++ "\n\nThe event has been successfully added to your calendar.\n\nWould you like to set a reminder for this event?"

/-- The "Calendar Event Updated" template (identical in both files). -/
def eventUpdatedTemplate (original newDetails : String) : String :=
  "# Calendar Event Updated ✅\n\n## Updated Event Details\n- Original Event: "
    ++ original ++ "\n- New Details: " ++ newDetails
    ++ "\n\nYour calendar has been successfully updated.\n\nIs there anything else you\x27d like to modify about this event?"

/-- The "Calendar Event Deleted" template (identical in both files). -/
def eventDeletedTemplate (event : String) : String :=
  "# Calendar Event Deleted ✅\n\nThe event \"" ++ event
    ++ "\" has been removed from your calendar.\n\nWould you like me to help you schedule a different event?"

/-- The "Calendar Events for ..." listing template
(`src/calendar_agent.py` only). -/
def eventsListTemplate (timePeriod : String) : String :=
  "# Calendar Events for " ++ timePeriod
    ++ "\n\n## Morning\n- 9:00 AM - 10:00 AM: Team Stand-up Meeting\n- 11:30 AM - 12:00 PM: Client Call\n\n## Afternoon\n- 2:00 PM - 3:30 PM: Project Planning\n- 4:00 PM - 5:00 PM: Weekly Review\n\nThese are your scheduled events for "
    ++ timePeriod ++ ". Would you like to add a new event or modify an existing one?"

/-- The catch-all "Calendar Information" template (identical in both
files). -/
def calendarInfoTemplate : String :=
  "# Calendar Information\n\nI can help you manage your calendar. You can ask me to:\n- Add new events\n- Edit existing events\n- Delete events\n- View your schedule for a specific date\n\nWhat would you like to do with your calendar?"

/-- The add/create/schedule branch of `_mock_response`, identical in both
calendar agent implementations: extract title, date and time from the
query (template order, left to right) and fill the created-event
template. -/
def createdBranch (query : String) : Except String String := do
  let title ← splitField2 "titled" " on " "New Event" query
  let date ← splitField2 "on " " at " "Tomorrow" query
  let time ← splitField1 "at " "9:00 AM" query
  pure (eventCreatedTemplate title date time)

/-- The deleted-event field of `src/calendar_agent.py`:
`q.split("delete")[1].strip() if "delete" in q else q.split("remove")[1].strip()
if "remove" in q else q.split("cancel")[1].strip() if "cancel" in q else
"Unknown Event"` — every index is guarded. -/
def deleteField (query : String) : Except String String :=
  if pyIn "delete" query then splitField1U "delete" query
  else if pyIn "remove" query then splitField1U "remove" query
  else if pyIn "cancel" query then splitField1U "cancel" query
  else pure "Unknown Event"

/-- The deleted-event field of `src/agent_controller.py`: same chain but
the final `q.split("cancel")[1].strip()` is unguarded. -/
def deleteFieldCtrl (query : String) : Except String String :=
  if pyIn "delete" query then splitField1U "delete" query
  else if pyIn "remove" query then splitField1U "remove" query
  else splitField1U "cancel" query

/-- `CalendarAgent._mock_response` of `src/calendar_agent.py`: keyword
dispatch on the lowercased query; every field access is guarded by the
corresponding `in` test, so no branch can raise. -/
def calendarAgentMock (query : String) : Except String String :=
  if pyIn "add" (pyLower query) || pyIn "create" (pyLower query)
      || pyIn "schedule" (pyLower query) then
    createdBranch query
  else if pyIn "edit" (pyLower query) || pyIn "update" (pyLower query)
      || pyIn "change" (pyLower query) then do
    let original ← splitField2 "event" "to" "Unknown Event" query
    let newDetails ← splitField1 "to" "Updated Details" query
    pure (eventUpdatedTemplate original newDetails)
  else if pyIn "delete" (pyLower query) || pyIn "remove" (pyLower query)
      || pyIn "cancel" (pyLower query) then do
    let event ← deleteField query
    pure (eventDeletedTemplate event)
  else if pyIn "show" (pyLower query) || pyIn "list" (pyLower query)
      || pyIn "view" (pyLower query) then do
    let timePeriod ← splitFieldLast "for" "today" query
    pure (eventsListTemplate timePeriod)
  else
    pure calendarInfoTemplate

/-- `CalendarAgent._mock_response` of `src/agent_controller.py`: same
keyword dispatch, but the edit branch indexes `query.split("edit")[1]`
and `query.split("to")[1]` unguarded, and the delete branch falls
through to an unguarded `query.split("cancel")[1]`; there is no
show/list branch. -/
def calendarCtrlMock (query : String) : Except String String :=
  if pyIn "add" (pyLower query) || pyIn "create" (pyLower query)
      || pyIn "schedule" (pyLower query) then
    createdBranch query
  else if pyIn "edit" (pyLower query) || pyIn "update" (pyLower query)
      || pyIn "change" (pyLower query) then do
    let original ← splitField2U "edit" "to" query
    let newDetails ← splitField1U "to" query
    pure (eventUpdatedTemplate original newDetails)
  else if pyIn "delete" (pyLower query) || pyIn "remove" (pyLower query)
      || pyIn "cancel" (pyLower query) then do
    let event ← deleteFieldCtrl query
    pure (eventDeletedTemplate event)
  else
    pure calendarInfoTemplate

/-- `CalendarAgent.get_response` of `src/agent_controller.py` in fallback
mode (`using_real_implementation = False`): it returns
`self._mock_response(query)` with no try/except around it, so an
exception raised by the mock propagates to the caller. -/
def calendarCtrlGetResponseFallback (query : String) : Except String String :=
  calendarCtrlMock query

/-- `CalendarAgent.get_response` of `src/calendar_agent.py` in fallback
mode: append the user message to memory, compute `_mock_response(query)`
(an exception there would propagate), append the response as the
assistant message, return it. -/
def calendarGetResponseFallback (diskOk : Bool) (st : Store) (query : String) :
    Except String (String × Store) :=
  let st1 := addUserMessage diskOk st "calendar_agent" query
  match calendarAgentMock query with
  | Except.error e => Except.error e
  | Except.ok r => Except.ok (r, addAIMessage diskOk st1 "calendar_agent" r)

/-- `CalendarAgent._enhance_calendar_query` (identical in both files). -/
def enhanceCalendarQuery (query : String) : String :=
  let ql := pyLower query
  if pyIn "add" ql || pyIn "create" ql || pyIn "schedule" ql then
    if pyIn "calendar" ql then query else "Add this event to my calendar: " ++ query
  else if pyIn "edit" ql || pyIn "update" ql || pyIn "change" ql then
    if pyIn "calendar" ql then query else "Update this calendar event: " ++ query
  else if pyIn "delete" ql || pyIn "remove" ql || pyIn "cancel" ql then
    if pyIn "calendar" ql then query else "Delete this calendar event: " ++ query
  else if pyIn "show" ql || pyIn "view" ql || pyIn "list" ql then
    if pyIn "calendar" ql then query else "Show my calendar events: " ++ query
  else query

/-- The prompt construction of the live path of
`CalendarAgent.get_response` (`src/calendar_agent.py`), as a function of
the message list current at that point (i.e. after the user append): use
the conversation-continuity prompt when the history text is non-empty
(Python truthiness) and more than 2 messages are stored, else the
keyword enhancement of the query. -/
def calendarEnhancedQuery (msgs : List Msg) (query : String) : String :=
  if getConversationHistory msgs 10 ≠ "" ∧ msgs.length > 2 then
    "Previous conversation:\n" ++ getConversationHistory msgs 10
      ++ "\n\nNew request: " ++ query
  else enhanceCalendarQuery query

/-- `CalendarAgent.get_response` of `src/calendar_agent.py` on the live
path, with the backend (the agent's `print_response` captured and
cleaned by `extract_important_content`, a pure formatting utility the
spec scopes out) as an opaque function that either returns text or
raises: on success the response is stored and returned; on an exception
the error text is returned and not stored. -/
def calendarGetResponseLive (diskOk : Bool)
    (backend : String → Except String String) (st : Store) (query : String) :
    String × Store :=
  let st1 := addUserMessage diskOk st "calendar_agent" query
  match backend (calendarEnhancedQuery (getMemoryMsgs st1 "calendar_agent") query) with
  | Except.ok resp => (resp, addAIMessage diskOk st1 "calendar_agent" resp)
  | Except.error e =>
    ("I encountered an error while trying to manage your calendar: " ++ e
      ++ "\n\nPlease check your Google Calendar permissions and try again.", st1)

/-- `SearchAgent._mock_response` of `src/simple_search_agent.py`. -/
def searchMock (query : String) : String :=
  if pyIn "university of Mannheim" (pyLower query)
      && pyIn "machine learning" (pyLower query) then
    "Before taking a Machine Learning course at the University of Mannheim, it\x27s recommended to complete these prerequisite courses:\n\n1. Introduction to Programming - Learn Python or R fundamentals\n2. Mathematics for Data Scientists - Covers linear algebra and calculus concepts\n3. Statistics and Probability - Essential for understanding ML algorithms\n4. Introduction to Data Analysis - Learn how to prepare and explore data\n\nThese courses will provide the necessary foundation before taking specialized Machine Learning courses.\n\nRecommended Path:\n1. First semester: Programming and Math foundations\n2. Second semester: Statistics and Data Analysis\n3. Third semester: Machine Learning and advanced topics\n\nThis pathway is recommended by most University of Mannheim data science students."
  else
    "Based on available information about " ++ query
      ++ ", I can provide the following response:\n\nThis appears to be a mock search response since the real search service is unavailable. For accurate, up-to-date information, please ensure API connections are working.\n\nIf this were a real search, you would see relevant information about this topic including latest facts and figures, trusted sources and citations, and summarized content from top search results.\n\nTo get real search results:\n1. Check your API key configuration\n2. Verify network connectivity\n3. Ensure the search service endpoints are accessible"

/-- `SearchAgent.get_response` of `src/simple_search_agent.py`: mock in
fallback mode (`backend = none`); on the live path call the backend (the
captured and cleaned `print_response`, opaque here) and fall back to the
mock on any exception. -/
def searchGetResponse (backend : Option (String → Except String String))
    (query : String) : String :=
  match backend with
  | none => searchMock query
  | some b =>
    match b query with
    | Except.ok resp => resp
    | Except.error _ => searchMock query

theorem isPrefixList_nil (h : List Char) : isPrefixList [] h = true := rfl

theorem isPrefixList_cons_nil (a : Char) (as : List Char) :
    isPrefixList (a :: as) [] = false := rfl

theorem isPrefixList_cons_cons (a b : Char) (as bs : List Char) :
    isPrefixList (a :: as) (b :: bs) = (a == b && isPrefixList as bs) := rfl

theorem isPrefixList_iff (n h : List Char) : isPrefixList n h = true ↔ n <+: h := by
  induction n generalizing h with
  | nil => simp [isPrefixList_nil, List.nil_prefix]
  | cons a as ih =>
    cases h with
    | nil => simp [isPrefixList_cons_nil]
    | cons b bs =>
      rw [isPrefixList_cons_cons, List.cons_prefix_cons]
      simp [ih, And.comm]

theorem containsSubList_nil (n : List Char) : containsSubList n [] = n.isEmpty := rfl

theorem containsSubList_cons (n : List Char) (c : Char) (rest : List Char) :
    containsSubList n (c :: rest) =
      (isPrefixList n (c :: rest) || containsSubList n rest) := rfl

theorem containsSubList_iff (n h : List Char) :
    containsSubList n h = true ↔ n <:+: h := by
  induction h with
  | nil => simp [containsSubList_nil, List.isEmpty_iff]
  | cons c rest ih =>
    rw [containsSubList_cons, List.infix_cons_iff]
    simp [isPrefixList_iff, ih]

theorem pyIn_iff (n h : String) : pyIn n h = true ↔ n.data <:+: h.data :=
  containsSubList_iff n.data h.data

theorem pySplitAux_nil (sep acc : List Char) (k : Nat) :
    pySplitAux sep [] acc k = [acc.reverse] := rfl

theorem pySplitAux_cons_skip (sep : List Char) (c : Char) (rest acc : List Char)
    (k : Nat) : pySplitAux sep (c :: rest) acc (k + 1) = pySplitAux sep rest acc k := rfl

theorem pySplitAux_cons_zero (sep : List Char) (c : Char) (rest acc : List Char) :
    pySplitAux sep (c :: rest) acc 0 =
      if isPrefixList sep (c :: rest) then
        acc.reverse :: pySplitAux sep rest [] (sep.length - 1)
      else
        pySplitAux sep rest (c :: acc) 0 := rfl

theorem pySplitAux_ne_nil (sep : List Char) :
    ∀ (s acc : List Char) (k : Nat), pySplitAux sep s acc k ≠ [] := by
  intro s
  induction s with
  | nil => intro acc k; simp [pySplitAux_nil]
  | cons c rest ih =>
    intro acc k
    cases k with
    | zero =>
      rw [pySplitAux_cons_zero]
      by_cases hp : isPrefixList sep (c :: rest) = true
      · simp [hp]
      · simpa [hp] using ih (c :: acc) 0
    | succ k => simpa [pySplitAux_cons_skip] using ih acc k

theorem pySplit_ne_nil (sep s : List Char) : pySplit sep s ≠ [] :=
  pySplitAux_ne_nil sep s [] 0

theorem pySplitAux_length_two (sep : List Char) (hsep : sep ≠ []) :
    ∀ (s acc : List Char), sep <:+: s → 2 ≤ (pySplitAux sep s acc 0).length := by
  intro s
  induction s with
  | nil =>
    intro acc hinf
    exact absurd (List.eq_nil_of_infix_nil hinf) hsep
  | cons c rest ih =>
    intro acc hinf
    rw [pySplitAux_cons_zero]
    by_cases hp : isPrefixList sep (c :: rest) = true
    · have hne := pySplitAux_ne_nil sep rest [] (sep.length - 1)
      have hlen : 1 ≤ (pySplitAux sep rest [] (sep.length - 1)).length :=
        List.length_pos.mpr hne
      simp only [hp, if_true, List.length_cons]
      omega
    · have hrest : sep <:+: rest := by
        rcases List.infix_cons_iff.mp hinf with hpre | hrest
        · exact absurd ((isPrefixList_iff sep (c :: rest)).mpr hpre) hp
        · exact hrest
      simpa [hp] using ih (c :: acc) hrest

theorem pySplitS_length_two {sep s : String} (hsep : sep.data ≠ [])
    (h : pyIn sep s = true) : 2 ≤ (pySplitS sep s).length := by
  have := pySplitAux_length_two sep.data hsep s.data [] ((pyIn_iff sep s).mp h)
  simpa [pySplitS, pySplit] using this

theorem pyIdx_zero_ok (sep s : String) :
    ∃ x, pyIdx (pySplitS sep s) 0 = Except.ok x := by
  have hne : pySplitS sep s ≠ [] := by
    simpa [pySplitS] using
      fun h => pySplit_ne_nil sep.data s.data (by simpa using congrArg (List.map String.mk) h)
  cases hl : pySplitS sep s with
  | nil => exact absurd hl hne
  | cons a t => exact ⟨a, by simp [pyIdx, hl]⟩

theorem pyIdx_one_ok {sep s : String} (hsep : sep.data ≠ [])
    (h : pyIn sep s = true) : ∃ x, pyIdx (pySplitS sep s) 1 = Except.ok x := by
  have hlen := pySplitS_length_two hsep h
  cases hl : pySplitS sep s with
  | nil => rw [hl] at hlen; simp at hlen
  | cons a t =>
    cases t with
    | nil => rw [hl] at hlen; simp at hlen
    | cons b t' => exact ⟨b, by simp [pyIdx]⟩

theorem saveMemory_mem (diskOk : Bool) (st : Store) (aid : String) :
    (saveMemory diskOk st aid).mem = st.mem := by
  unfold saveMemory
  split
  · split <;> rfl
  · rfl

theorem addUserMessage_msgs (diskOk : Bool) (st : Store) (aid msg : String) :
    getMemoryMsgs (addUserMessage diskOk st aid msg) aid
      = getMemoryMsgs st aid ++ [Msg.mk "user" msg] := by
  unfold addUserMessage
  simp [getMemoryMsgs, saveMemory_mem, getMemoryStore]

theorem addAIMessage_msgs (diskOk : Bool) (st : Store) (aid msg : String) :
    getMemoryMsgs (addAIMessage diskOk st aid msg) aid
      = getMemoryMsgs st aid ++ [Msg.mk "assistant" msg] := by
  unfold addAIMessage
  simp [getMemoryMsgs, saveMemory_mem, getMemoryStore]

theorem formatMsg_user (msg : String) :
    formatMsg (Msg.mk "user" msg) = "User: " ++ msg := by
  unfold formatMsg
  rw [if_pos rfl]
  rw [show ("User" ++ ": " : String) = "User: " from rfl]

theorem renderHistory_cons (m : Msg) (rest : List Msg) (hne : rest ≠ []) :
    renderHistory (m :: rest) = formatMsg m ++ "\n\n" ++ renderHistory rest := by
  cases rest with
  | nil => exact absurd rfl hne
  | cons m' rest' => rfl

theorem renderHistory_last_suffix (l : List Msg) (e : Msg) :
    (formatMsg e).data <:+ (renderHistory (l ++ [e])).data := by
  induction l with
  | nil => exact List.suffix_refl _
  | cons m rest ih =>
    have hne : rest ++ [e] ≠ [] := by simp
    rw [List.cons_append, renderHistory_cons m (rest ++ [e]) hne]
    calc (formatMsg e).data
        <:+ (renderHistory (rest ++ [e])).data := ih
      _ <:+ (formatMsg m ++ "\n\n" ++ renderHistory (rest ++ [e])).data := by
            rw [String.data_append]
            exact (List.suffix_append _ _).trans (List.suffix_refl _)

theorem clearMemory_msgs (diskOk : Bool) (st : Store) (aid : String) :
    getMemoryMsgs (clearMemory diskOk st aid) aid = [] := by
  unfold clearMemory
  rcases ho : st.mem aid with _ | l
  · simp [ho, getMemoryMsgs]
  · simp [ho, getMemoryMsgs, saveMemory_mem]

/-- Claim C8: clearing an agent's memory and then reading its
conversation history yields the empty string, for every prior state of
the store, every persistence outcome and every `max_messages` bound;
`clear_memory` has replaced the agent's log with an empty one. -/
theorem clear_then_history_empty (diskOk : Bool) (st : Store) (aid : String)
    (maxMessages : Nat) :
    getConversationHistory (getMemoryMsgs (clearMemory diskOk st aid) aid) maxMessages
      = "" ∧ getMemoryMsgs (clearMemory diskOk st aid) aid = [] := by
  rw [clearMemory_msgs]
  unfold getConversationHistory
  simp

theorem history_append_suffix (l : List Msg) (e : Msg) (m : Nat) (hm : 1 ≤ m) :
    (formatMsg e).data <:+ (getConversationHistory (l ++ [e]) m).data := by
  unfold getConversationHistory pySliceLast
  by_cases h : (l ++ [e]).length > m
  · have hm0 : ¬ m = 0 := by omega
    have hk : (l ++ [e]).length - m ≤ l.length := by
      simp only [List.length_append, List.length_singleton]
      omega
    rw [if_pos h, if_neg hm0, List.drop_append_eq_append_drop,
      Nat.sub_eq_zero_of_le hk, List.drop_zero]
    have hne : l.drop ((l ++ [e]).length - m) ++ [e] ≠ [] := by simp
    rw [if_neg hne]
    exact renderHistory_last_suffix _ e
  · rw [if_neg h]
    have hne : l ++ [e] ≠ [] := by simp
    rw [if_neg hne]
    exact renderHistory_last_suffix l e

/-- Claim C7: `add_user_message` followed immediately by
`get_conversation_history` (Python default `max_messages = 10`) reflects
the new entry, for every persistence outcome: the append to the
in-memory log happens before `_save_memory`, and a persistence failure
(`diskOk = false`) is caught and swallowed without undoing it, so the
agent's log is the old log with the user entry appended and the rendered
history ends with the new entry's `"User: ..."` line. -/
theorem addUser_history_reflects_append (diskOk : Bool) (st : Store)
    (aid msg : String) :
    getMemoryMsgs (addUserMessage diskOk st aid msg) aid
      = getMemoryMsgs st aid ++ [Msg.mk "user" msg]
    ∧ ("User: " ++ msg).data <:+
        (getConversationHistory (getMemoryMsgs (addUserMessage diskOk st aid msg) aid)
          10).data := by
  refine ⟨addUserMessage_msgs diskOk st aid msg, ?_⟩
  rw [addUserMessage_msgs, ← formatMsg_user]
  exact history_append_suffix (getMemoryMsgs st aid) (Msg.mk "user" msg) 10 (by omega)

/-- Claim C3 (amended): for every message log and every
`max_messages ≥ 1`, `get_conversation_history` returns exactly the last
`min(N, max_messages)` entries (N the log length) rendered oldest-first
with their role labels, and returns `""` for an empty log.  (For
`max_messages = 0` the claim fails: Python's slice `[-0:]` selects the
whole list, see the counterexample.) -/
theorem history_last_min (msgs : List Msg) (m : Nat) (hm : 1 ≤ m) :
    getConversationHistory msgs m
      = renderHistory (msgs.drop (msgs.length - min msgs.length m))
    ∧ (msgs.drop (msgs.length - min msgs.length m)).length = min msgs.length m
    ∧ msgs.drop (msgs.length - min msgs.length m) <:+ msgs
    ∧ (msgs = [] → getConversationHistory msgs m = "") := by
  have hminle : min msgs.length m ≤ msgs.length := Nat.min_le_left _ _
  refine ⟨?_, ?_, List.drop_suffix _ _, ?_⟩
  · unfold getConversationHistory pySliceLast
    by_cases h : msgs.length > m
    · have hmin : min msgs.length m = m := Nat.min_eq_right (Nat.le_of_lt h)
      have hm0 : ¬ m = 0 := by omega
      rw [if_pos h, if_neg hm0, hmin]
      have hne : msgs.drop (msgs.length - m) ≠ [] := by
        intro hh
        have := congrArg List.length hh
        simp only [List.length_drop, List.length_nil] at this
        omega
      rw [if_neg hne]
    · have hmin : min msgs.length m = msgs.length := Nat.min_eq_left (by omega)
      rw [if_neg h, hmin, Nat.sub_self, List.drop_zero]
      cases msgs with
      | nil => rw [if_pos rfl]; rfl
      | cons a t => rw [if_neg (by simp)]
  · rw [List.length_drop]
    omega
  · intro he
    subst he
    rfl

/-- Witness for C3: three entries, `max_messages = 2` — the history is the
rendering of the last two entries. -/
theorem history_last_min_witness :
    getConversationHistory
        [Msg.mk "user" "a", Msg.mk "assistant" "b", Msg.mk "user" "c"] 2
      = renderHistory
          (([Msg.mk "user" "a", Msg.mk "assistant" "b", Msg.mk "user" "c"]).drop
            (([Msg.mk "user" "a", Msg.mk "assistant" "b",
              Msg.mk "user" "c"] : List Msg).length
              - min ([Msg.mk "user" "a", Msg.mk "assistant" "b",
                  Msg.mk "user" "c"] : List Msg).length 2)) :=
  (history_last_min [Msg.mk "user" "a", Msg.mk "assistant" "b", Msg.mk "user" "c"] 2
    (by decide)).1

/-- Counterexample for C3 as stated: with one stored entry and
`max_messages = 0`, the claim demands the last `min(1, 0) = 0` entries,
i.e. the empty string, but the code returns the whole history — Python's
`messages[-0:]` is `messages[0:]`. -/
theorem history_maxzero_counterexample :
    getConversationHistory [Msg.mk "user" "hi"] 0 = "User: hi"
    ∧ renderHistory (([Msg.mk "user" "hi"]).drop
        (([Msg.mk "user" "hi"] : List Msg).length
          - min ([Msg.mk "user" "hi"] : List Msg).length 0)) = ""
    ∧ ("User: hi" : String) ≠ "" := by
  refine ⟨by decide, by decide, by decide⟩

/-- Claim C9: every store operation except `clear_memory` — the two
appends, `get_memory` (whose creation of a missing entry is also the only
state effect of `get_conversation_history` and `get_memory_stats`), and
`_save_memory` — leaves each agent's existing message sequence a prefix of
the resulting one, under every persistence outcome; and `clear_memory`
changes entries only by replacing the whole log with an empty one. -/
theorem memory_append_only (diskOk : Bool) (st : Store) (aid x aid' : String) :
    getMemoryMsgs st aid' <+: getMemoryMsgs (addUserMessage diskOk st aid x) aid'
    ∧ getMemoryMsgs st aid' <+: getMemoryMsgs (addAIMessage diskOk st aid x) aid'
    ∧ getMemoryMsgs st aid' <+: getMemoryMsgs (getMemoryStore st aid) aid'
    ∧ getMemoryMsgs st aid' <+: getMemoryMsgs (saveMemory diskOk st aid) aid'
    ∧ getMemoryMsgs (clearMemory diskOk st aid) aid = [] := by
  refine ⟨?_, ?_, ?_, ?_, ?_⟩
  · by_cases h : aid' = aid
    · subst h
      rw [addUserMessage_msgs]
      exact List.prefix_append _ _
    · unfold addUserMessage
      simp [getMemoryMsgs, saveMemory_mem, getMemoryStore, h]
  · by_cases h : aid' = aid
    · subst h
      rw [addAIMessage_msgs]
      exact List.prefix_append _ _
    · unfold addAIMessage
      simp [getMemoryMsgs, saveMemory_mem, getMemoryStore, h]
  · by_cases h : aid' = aid
    · subst h
      simp [getMemoryMsgs, getMemoryStore]
    · simp [getMemoryMsgs, getMemoryStore, h]
  · simp only [getMemoryMsgs, saveMemory_mem]
    exact List.prefix_refl _
  · exact clearMemory_msgs diskOk st aid

theorem findAgentName_nil (c : String) : findAgentName [] c = c := rfl

theorem findAgentName_cons (n : String) (rest : List String) (c : String) :
    findAgentName (n :: rest) c = if pyIn n c then n else findAgentName rest c := rfl

theorem findAgentName_eq_find (l : List String) (c : String) :
    findAgentName l c = (l.find? (fun n => pyIn n c)).getD c := by
  induction l with
  | nil => rfl
  | cons n rest ih =>
    rw [findAgentName_cons, List.find?_cons]
    by_cases h : pyIn n c = true
    · simp [h]
    · rw [Bool.not_eq_true] at h
      simp [h, ih]

/-- Claim C1 (amended): the live-path parser selects the capability by
checking, in the fixed order direct, search, calendar, research,
study_plan, document_analysis, general, whether each name occurs as a
substring of the stripped lowercased answer, the first match winning
(it coincides with the `find?` formulation of the spec sentence); and
for every answer in which no enumerated name occurs, the parsed choice
is the raw stripped lowercased answer itself, so the query is handled by
the general capability unless that raw text is itself a key of the agent
registry (such as `"chat"` or `"react"`), in which case that agent
handles it. -/
theorem live_parser_first_match :
    (∀ rawAnswer : String,
      determineAgentLive rawAnswer
        = ((agentNames.find? (fun n => pyIn n (pyLower (pyStrip rawAnswer)))).getD
            (pyLower (pyStrip rawAnswer))))
    ∧ (∀ rawAnswer : String,
        agentNames.find? (fun n => pyIn n (pyLower (pyStrip rawAnswer))) = none →
          determineAgentLive rawAnswer = pyLower (pyStrip rawAnswer)
          ∧ handledBy (determineAgentLive rawAnswer)
              = (if registryKeys.contains (pyLower (pyStrip rawAnswer)) then
                  pyLower (pyStrip rawAnswer)
                 else "general")) := by
  constructor
  · intro raw
    exact findAgentName_eq_find agentNames (pyLower (pyStrip raw))
  · intro raw hnone
    have hval : determineAgentLive raw = pyLower (pyStrip raw) := by
      unfold determineAgentLive
      rw [findAgentName_eq_find agentNames (pyLower (pyStrip raw)), hnone]
      rfl
    refine ⟨hval, ?_⟩
    rw [hval]
    have hdir : ¬ pyLower (pyStrip raw) = "direct" := by
      intro heq
      have hmem : "direct" ∈ agentNames := by decide
      have := List.find?_eq_none.mp hnone "direct" hmem
      rw [heq] at this
      exact this (by decide)
    unfold handledBy
    rw [if_neg hdir]

/-- Witness for C1: the answer `"chat"` contains no enumerated name; the
parser passes it through and the registry dispatch resolves it. -/
theorem live_parser_first_match_witness :
    determineAgentLive "chat" = pyLower (pyStrip "chat")
    ∧ handledBy (determineAgentLive "chat")
        = (if registryKeys.contains (pyLower (pyStrip "chat")) then pyLower (pyStrip "chat")
           else "general") :=
  live_parser_first_match.2 "chat" (by decide)

/-- Counterexample for C1 as stated: the answer `"chat"` contains no name
of the enumeration, yet the query is handled by the chat capability, not
the general one — the raw answer is passed through to the registry
lookup, which knows the key `"chat"`. -/
theorem live_parser_chat_counterexample :
    agentNames.all (fun n => ! pyIn n (pyLower (pyStrip "chat"))) = true
    ∧ handledBy (determineAgentLive "chat") = "chat"
    ∧ ("chat" : String) ≠ "general" :=
  ⟨by decide, by decide, by decide⟩

/-- Claim C4 (amended): since `"search"` is a substring of `"research"`
and precedes it in the fixed scan order, every model answer that contains
`"research"` and does not contain the still-earlier name `"direct"` is
classified `"search"`; and the parser never outputs `"research"`, for any
model answer on the live-backend path. -/
theorem research_shadowed_by_search :
    (∀ rawAnswer : String,
      pyIn "research" (pyLower (pyStrip rawAnswer)) = true →
      pyIn "direct" (pyLower (pyStrip rawAnswer)) = false →
      determineAgentLive rawAnswer = "search")
    ∧ (∀ rawAnswer : String, determineAgentLive rawAnswer ≠ "research") := by
  have hsub : ∀ c : String, pyIn "research" c = true → pyIn "search" c = true := by
    intro c h
    have h1 : ("search" : String).data <:+: ("research" : String).data := by decide
    exact (pyIn_iff "search" c).mpr (h1.trans ((pyIn_iff "research" c).mp h))
  constructor
  · intro raw hres hdir
    have hsearch := hsub _ hres
    unfold determineAgentLive agentNames
    rw [findAgentName_cons, if_neg (by rw [hdir]; exact Bool.false_ne_true),
      findAgentName_cons, if_pos hsearch]
  · intro raw h
    unfold determineAgentLive agentNames at h
    simp only [findAgentName_cons, findAgentName_nil] at h
    split_ifs at h with h1 h2 h3 h4 h5 h6 h7
    · exact absurd h (by decide)
    · exact absurd h (by decide)
    · exact absurd h (by decide)
    · exact absurd (hsub _ h4) h2
    · exact absurd h (by decide)
    · exact absurd h (by decide)
    · exact absurd h (by decide)
    · rw [h] at h4
      exact h4 (by decide)

/-- Witness for C4: the bare answer `"research"` is classified as
`"search"`. -/
theorem research_shadowed_by_search_witness :
    determineAgentLive "research" = "search" :=
  research_shadowed_by_search.1 "research" (by decide) (by decide)

/-- Counterexample for C4 as stated: the answer `"direct research"`
contains `"research"` but is classified `"direct"`, not `"search"` —
the name `"direct"` is scanned first. -/
theorem research_direct_counterexample :
    pyIn "research" (pyLower (pyStrip "direct research")) = true
    ∧ determineAgentLive "direct research" = "direct"
    ∧ ("direct" : String) ≠ "search" :=
  ⟨by decide, by decide, by decide⟩

/-- Claim C5 (amended): in keyword-fallback routing, every query whose
lowercased text contains both `"schedule"` and `"entropy"` and none of
the keywords of the earlier location rule (restaurant, café, best,
recommend, where, location) routes to the calendar capability, not the
research capability: the calendar rule precedes the science rule in the
fixed rule order. -/
theorem schedule_entropy_calendar (query : String)
    (hsched : pyIn "schedule" (pyLower query) = true)
    (hent : pyIn "entropy" (pyLower query) = true)
    (hloc : locationWords.any (fun w => pyIn w (pyLower query)) = false) :
    (determineAgentMock query).1 = "calendar" := by
  unfold determineAgentMock
  have hcal : calendarWords.any (fun w => pyIn w (pyLower query)) = true :=
    List.any_eq_true.mpr ⟨"schedule", by decide, hsched⟩
  rw [if_neg (by rw [hloc]; exact Bool.false_ne_true), if_pos hcal]

/-- Witness for C5: the query `"schedule entropy"` routes to calendar. -/
theorem schedule_entropy_calendar_witness :
    (determineAgentMock "schedule entropy").1 = "calendar" :=
  schedule_entropy_calendar "schedule entropy" (by decide) (by decide) (by decide)

/-- Counterexample for C5 as stated: the query
`"where to schedule my entropy talk"` contains both `"schedule"` and
`"entropy"` yet routes to research — it also contains `"where"`, a
keyword of the location rule, which is checked before the calendar
rule. -/
theorem schedule_entropy_where_counterexample :
    pyIn "schedule" (pyLower "where to schedule my entropy talk") = true
    ∧ pyIn "entropy" (pyLower "where to schedule my entropy talk") = true
    ∧ (determineAgentMock "where to schedule my entropy talk").1 = "research"
    ∧ ("research" : String) ≠ "calendar" :=
  ⟨by decide, by decide, by decide, by decide⟩

theorem ok_bind {α β : Type} (a : α) (f : α → Except String β) :
    (Except.ok a >>= f) = f a := rfl

theorem append_ne_empty (a b : String) (h : a ≠ "") : a ++ b ≠ "" := by
  intro hab
  apply h
  have hd : (a ++ b).data = [] := congrArg String.data hab
  rw [String.data_append] at hd
  rcases List.append_eq_nil.mp hd with ⟨ha, _⟩
  cases a with
  | mk data =>
    rw [show data = [] from ha]

theorem eventCreatedTemplate_ne_empty (t d ti : String) :
    eventCreatedTemplate t d ti ≠ "" := by
  unfold eventCreatedTemplate
  repeat apply append_ne_empty
  decide

theorem eventUpdatedTemplate_ne_empty (o n : String) :
    eventUpdatedTemplate o n ≠ "" := by
  unfold eventUpdatedTemplate
  repeat apply append_ne_empty
  decide

theorem eventDeletedTemplate_ne_empty (e : String) : eventDeletedTemplate e ≠ "" := by
  unfold eventDeletedTemplate
  repeat apply append_ne_empty
  decide

theorem eventsListTemplate_ne_empty (tp : String) : eventsListTemplate tp ≠ "" := by
  unfold eventsListTemplate
  repeat apply append_ne_empty
  decide

theorem pySplitS_ne_nil (sep q : String) : pySplitS sep q ≠ [] := by
  intro h
  exact pySplit_ne_nil sep.data q.data (by simpa [pySplitS] using h)

theorem pyIdxLast_ok {α : Type} (l : List α) (h : l ≠ []) :
    ∃ x, pyIdxLast l = Except.ok x := by
  unfold pyIdxLast
  cases hl : l.getLast? with
  | none => exact absurd (List.getLast?_eq_none_iff.mp hl) h
  | some x => exact ⟨x, rfl⟩

theorem splitField2_ok (sep1 sep2 dflt q : String) (h1 : sep1.data ≠ []) :
    ∃ v, splitField2 sep1 sep2 dflt q = Except.ok v := by
  unfold splitField2
  by_cases h : pyIn sep1 q = true
  · rw [if_pos h]
    obtain ⟨p, hp⟩ := pyIdx_one_ok h1 h
    obtain ⟨q0, hq0⟩ := pyIdx_zero_ok sep2 p
    exact ⟨pyStrip q0, by rw [hp, ok_bind, hq0, ok_bind]; rfl⟩
  · rw [if_neg h]
    exact ⟨dflt, rfl⟩

theorem splitField1_ok (sep dflt q : String) (h1 : sep.data ≠ []) :
    ∃ v, splitField1 sep dflt q = Except.ok v := by
  unfold splitField1
  by_cases h : pyIn sep q = true
  · rw [if_pos h]
    obtain ⟨p, hp⟩ := pyIdx_one_ok h1 h
    exact ⟨pyStrip p, by rw [hp, ok_bind]; rfl⟩
  · rw [if_neg h]
    exact ⟨dflt, rfl⟩

theorem splitField1U_ok {sep q : String} (h1 : sep.data ≠ [])
    (h : pyIn sep q = true) : ∃ v, splitField1U sep q = Except.ok v := by
  obtain ⟨p, hp⟩ := pyIdx_one_ok h1 h
  exact ⟨pyStrip p, by unfold splitField1U; rw [hp, ok_bind]; rfl⟩

theorem splitFieldLast_ok (sep dflt q : String) :
    ∃ v, splitFieldLast sep dflt q = Except.ok v := by
  unfold splitFieldLast
  by_cases h : pyIn sep q = true
  · rw [if_pos h]
    obtain ⟨p, hp⟩ := pyIdxLast_ok (pySplitS sep q) (pySplitS_ne_nil sep q)
    exact ⟨pyStrip p, by rw [hp, ok_bind]; rfl⟩
  · rw [if_neg h]
    exact ⟨dflt, rfl⟩

theorem createdBranch_ok (query : String) :
    ∃ r, createdBranch query = Except.ok r ∧ r ≠ "" := by
  obtain ⟨t, ht⟩ := splitField2_ok "titled" " on " "New Event" query (by decide)
  obtain ⟨d, hd⟩ := splitField2_ok "on " " at " "Tomorrow" query (by decide)
  obtain ⟨ti, hti⟩ := splitField1_ok "at " "9:00 AM" query (by decide)
  refine ⟨eventCreatedTemplate t d ti, ?_, eventCreatedTemplate_ne_empty t d ti⟩
  unfold createdBranch
  rw [ht, ok_bind, hd, ok_bind, hti, ok_bind]
  rfl

theorem deleteField_ok (query : String) :
    ∃ e, deleteField query = Except.ok e := by
  unfold deleteField
  by_cases hd : pyIn "delete" query = true
  · rw [if_pos hd]; exact splitField1U_ok (by decide) hd
  · rw [if_neg hd]
    by_cases hr : pyIn "remove" query = true
    · rw [if_pos hr]; exact splitField1U_ok (by decide) hr
    · rw [if_neg hr]
      by_cases hc : pyIn "cancel" query = true
      · rw [if_pos hc]; exact splitField1U_ok (by decide) hc
      · rw [if_neg hc]; exact ⟨"Unknown Event", rfl⟩

theorem calendarAgentMock_ok (query : String) :
    ∃ r, calendarAgentMock query = Except.ok r ∧ r ≠ "" := by
  unfold calendarAgentMock
  by_cases hA : (pyIn "add" (pyLower query) || pyIn "create" (pyLower query)
      || pyIn "schedule" (pyLower query)) = true
  · rw [if_pos hA]
    exact createdBranch_ok query
  · rw [if_neg hA]
    by_cases hB : (pyIn "edit" (pyLower query) || pyIn "update" (pyLower query)
        || pyIn "change" (pyLower query)) = true
    · rw [if_pos hB]
      obtain ⟨o, ho⟩ := splitField2_ok "event" "to" "Unknown Event" query (by decide)
      obtain ⟨n, hn⟩ := splitField1_ok "to" "Updated Details" query (by decide)
      refine ⟨eventUpdatedTemplate o n, ?_, eventUpdatedTemplate_ne_empty o n⟩
      rw [ho, ok_bind, hn, ok_bind]
      rfl
    · rw [if_neg hB]
      by_cases hC : (pyIn "delete" (pyLower query) || pyIn "remove" (pyLower query)
          || pyIn "cancel" (pyLower query)) = true
      · rw [if_pos hC]
        obtain ⟨e, he⟩ := deleteField_ok query
        refine ⟨eventDeletedTemplate e, ?_, eventDeletedTemplate_ne_empty e⟩
        rw [he, ok_bind]
        rfl
      · rw [if_neg hC]
        by_cases hD : (pyIn "show" (pyLower query) || pyIn "list" (pyLower query)
            || pyIn "view" (pyLower query)) = true
        · rw [if_pos hD]
          obtain ⟨tp, htp⟩ := splitFieldLast_ok "for" "today" query
          refine ⟨eventsListTemplate tp, ?_, eventsListTemplate_ne_empty tp⟩
          rw [htp, ok_bind]
          rfl
        · rw [if_neg hD]
          exact ⟨calendarInfoTemplate, rfl, by decide⟩

theorem calendar_getResponseFallback_ok (diskOk : Bool) (st : Store)
    (query : String) :
    ∃ r st1, calendarGetResponseFallback diskOk st query = Except.ok (r, st1)
      ∧ r ≠ "" := by
  obtain ⟨r, hr, hne⟩ := calendarAgentMock_ok query
  refine ⟨r, addAIMessage diskOk (addUserMessage diskOk st "calendar_agent" query)
    "calendar_agent" r, ?_, hne⟩
  unfold calendarGetResponseFallback
  rw [hr]

theorem searchMock_ne_empty (query : String) : searchMock query ≠ "" := by
  unfold searchMock
  split_ifs with h
  · decide
  · repeat apply append_ne_empty
    decide

theorem search_getResponse_raising_backend (query : String)
    (b : String → Except String String) (hb : ∀ p, ∃ e, b p = Except.error e) :
    searchGetResponse none query = searchMock query
    ∧ searchGetResponse (some b) query = searchMock query
    ∧ searchMock query ≠ "" := by
  refine ⟨rfl, ?_, searchMock_ne_empty query⟩
  obtain ⟨e, he⟩ := hb query
  show (match b query with
    | Except.ok resp => resp
    | Except.error _ => searchMock query) = searchMock query
  rw [he]

theorem formatMsg_length_pos (m : Msg) : 0 < (formatMsg m).length := by
  unfold formatMsg
  by_cases h : m.role = "user"
  · rw [if_pos h, String.length_append, String.length_append]
    have : (0:Nat) < ("User" : String).length := by decide
    omega
  · rw [if_neg h, String.length_append, String.length_append]
    have : (0:Nat) < ("Assistant" : String).length := by decide
    omega

theorem renderHistory_ne_empty (m : Msg) (rest : List Msg) :
    renderHistory (m :: rest) ≠ "" := by
  cases rest with
  | nil =>
    intro h
    have hlen := congrArg String.length h
    rw [show renderHistory [m] = formatMsg m from rfl] at hlen
    have := formatMsg_length_pos m
    rw [hlen] at this
    exact absurd this (by decide)
  | cons m' rest' =>
    intro h
    have hlen := congrArg String.length h
    rw [renderHistory_cons m (m' :: rest') (by simp), String.length_append,
      String.length_append] at hlen
    have := formatMsg_length_pos m
    rw [show ("" : String).length = 0 from rfl] at hlen
    omega

/-- Claim C2 (code bug): the spec's fallback guarantee — `respond` always
returns non-empty text and never propagates an exception — is violated by
the calendar capability registered in `MultiAgentSystem.agents`: in
fallback mode its `_mock_response` evaluates `query.split("edit")[1]`
unguarded, which raises `IndexError` for the query "update my meeting";
the guarded sibling implementation in `src/calendar_agent.py` returns the
templated response on the same input, showing the intended behaviour. -/
theorem ctrl_calendar_fallback_raises :
    calendarCtrlGetResponseFallback "update my meeting"
      = Except.error "IndexError"
    ∧ calendarAgentMock "update my meeting"
      = Except.ok (eventUpdatedTemplate "Unknown Event" "Updated Details") :=
  ⟨by rfl, by rfl⟩

/-- Claim C10: for the exact query "Schedule a meeting titled Team Sync on
April 30, 2025 at 2:00 PM" with no backend, both `_mock_response`
implementations return the event-created confirmation whose extracted
fields are exactly title "Team Sync", date "April 30, 2025" and time
"2:00 PM". -/
theorem schedule_team_sync_mock :
    calendarAgentMock
        "Schedule a meeting titled Team Sync on April 30, 2025 at 2:00 PM"
      = Except.ok (eventCreatedTemplate "Team Sync" "April 30, 2025" "2:00 PM")
    ∧ calendarCtrlMock
        "Schedule a meeting titled Team Sync on April 30, 2025 at 2:00 PM"
      = Except.ok (eventCreatedTemplate "Team Sync" "April 30, 2025" "2:00 PM") :=
  ⟨by rfl, by rfl⟩

/-- Claim C6 (amended): the conversation-continuity branch lives on the
live-backend path and switches the prompt construction, not the fallback
template: on a first call (one stored message after the user append) the
prompt is the keyword enhancement of the query, while on a second
consecutive call (three stored messages, exceeding the threshold of 2)
the prompt is built from the "Previous conversation" continuity
template.  In fallback mode the response is a function of the query
alone, independent of the stored history. -/
theorem continuity_prompt_second_call (q1 r1 q2 : String) :
    calendarEnhancedQuery [Msg.mk "user" q1] q1 = enhanceCalendarQuery q1
    ∧ calendarEnhancedQuery
        [Msg.mk "user" q1, Msg.mk "assistant" r1, Msg.mk "user" q2] q2
        = "Previous conversation:\n"
          ++ getConversationHistory
              [Msg.mk "user" q1, Msg.mk "assistant" r1, Msg.mk "user" q2] 10
          ++ "\n\nNew request: " ++ q2
    ∧ (∀ (diskOk : Bool) (st : Store),
        (calendarGetResponseFallback diskOk st q2).map Prod.fst
          = calendarAgentMock q2) := by
  refine ⟨?_, ?_, ?_⟩
  · unfold calendarEnhancedQuery
    rw [if_neg]
    rintro ⟨-, h2⟩
    simp at h2
  · unfold calendarEnhancedQuery
    rw [if_pos]
    constructor
    · have hrh : getConversationHistory
          [Msg.mk "user" q1, Msg.mk "assistant" r1, Msg.mk "user" q2] 10
          = renderHistory
              [Msg.mk "user" q1, Msg.mk "assistant" r1, Msg.mk "user" q2] := by
        unfold getConversationHistory
        rw [if_neg (by simp), if_neg (by simp)]
      rw [hrh]
      exact renderHistory_ne_empty _ _
    · simp
  · intro diskOk st
    unfold calendarGetResponseFallback
    cases h : calendarAgentMock q2 with
    | error e => rfl
    | ok r => rfl

/-- Counterexample for C6 as stated: two consecutive fallback calls with
different queries ("schedule lunch with Bob", then "schedule dinner with
Alice") produce a second response that is exactly the response the
capability gives for the second query when the history is empty — the
same fallback template, not a different one; in fallback mode
`_mock_response` never consults the history. -/
theorem fallback_no_continuity_counterexample :
    (match calendarGetResponseFallback true emptyStore "schedule lunch with Bob" with
      | Except.ok (_, st1) =>
        (calendarGetResponseFallback true st1 "schedule dinner with Alice").map
          Prod.fst
      | Except.error e => Except.error e)
      = Except.ok (eventCreatedTemplate "New Event" "Tomorrow" "9:00 AM")
    ∧ (calendarGetResponseFallback true emptyStore
        "schedule dinner with Alice").map Prod.fst
      = Except.ok (eventCreatedTemplate "New Event" "Tomorrow" "9:00 AM") :=
  ⟨by rfl, by rfl⟩

end Spec2Proof
